import Mathlib

/-!
Verification of the tool-use conversation loop of the `courses` repository
(`src/chatbot_app`): the conversation store (`conversation_manager.py`),
the tool dispatcher (`tool_handler.py`), the reply post-processor
(`response_formatter.py`) and the loop driver (`app.py`, `simple_chat`).
Python values, exceptions and string operations are embedded shallowly.
-/

/-- Embedded Python values, covering the shapes the chatbot code passes
around: `None`, strings, integers, lists and string-keyed dicts. -/
inductive PyVal where
  | none
  | str (s : String)
  | int (n : Int)
  | list (xs : List PyVal)
  | dict (fields : List (String × PyVal))

/-- A Python dict with string keys, as used for `tool_input` and for the
tool-result content blocks. -/
abbrev PyDict : Type := List (String × PyVal)

/-- Python exceptions that the embedded chatbot code can raise. -/
inductive PyError where
  | keyError (key : String)
  | attributeError (attr : String)
  | indexError
deriving DecidableEq

/-- The single-quote character (used by Python `repr` of strings). -/
def squote : Char := Char.ofNat 39

/-- The double-quote character. -/
def dquote : Char := Char.ofNat 34

/-- Escaping of one character inside a Python string literal of quote
character `q`, as `repr` performs it for the common escapes. -/
def pyEscapeChar (q : Char) (c : Char) : String :=
  if c = Char.ofNat 92 then "\\\\"
  else if c = q then String.mk [Char.ofNat 92, q]
  else if c = Char.ofNat 10 then "\\n"
  else if c = Char.ofNat 13 then "\\r"
  else if c = Char.ofNat 9 then "\\t"
  else String.mk [c]

/-- Python `repr` of a string: quoted with single quotes, or with double
quotes when the string contains a single quote and no double quote. -/
def pyQuote (s : String) : String :=
  if s.toList.contains squote && !(s.toList.contains dquote) then
    String.mk [dquote] ++ String.join (s.toList.map (pyEscapeChar dquote)) ++ String.mk [dquote]
  else
    String.mk [squote] ++ String.join (s.toList.map (pyEscapeChar squote)) ++ String.mk [squote]

mutual

/-- Python `repr` on embedded values. -/
def pyRepr : PyVal → String
  | PyVal.none => "None"
  | PyVal.str s => pyQuote s
  | PyVal.int n => toString n
  | PyVal.list xs => "[" ++ pyReprItems xs ++ "]"
  | PyVal.dict fs => "\x7b" ++ pyReprFields fs ++ "\x7d"

/-- Comma-separated `repr` of the items of a Python list. -/
def pyReprItems : List PyVal → String
  | [] => ""
  | [x] => pyRepr x
  | x :: y :: xs => pyRepr x ++ ", " ++ pyReprItems (y :: xs)

/-- Comma-separated `repr` of the fields of a Python dict. -/
def pyReprFields : List (String × PyVal) → String
  | [] => ""
  | [(k, v)] => pyQuote k ++ ": " ++ pyRepr v
  | (k, v) :: f :: fs => pyQuote k ++ ": " ++ pyRepr v ++ ", " ++ pyReprFields (f :: fs)

end

/-- Python `str(...)` coercion: identity on strings, `"None"` on `None`,
decimal rendering on integers, `repr` on containers. -/
def pyStr : PyVal → String
  | PyVal.none => "None"
  | PyVal.str s => s
  | PyVal.int n => toString n
  | PyVal.list xs => pyRepr (PyVal.list xs)
  | PyVal.dict fs => pyRepr (PyVal.dict fs)

/-- Python `d[k]` on a dict: the value when the key is present, a
`KeyError` exception otherwise. -/
def pyGet (d : PyDict) (k : String) : Except PyError PyVal :=
  match d.lookup k with
  | Option.some v => Except.ok v
  | Option.none => Except.error (PyError.keyError k)

/-- The external `FakeDatabase` collaborator of `tool_handler.py`
(`database.py` is outside the specified core). Its four handlers are kept
abstract: each takes the argument values the dispatcher passes and either
returns a value or raises. -/
structure Db where
  get_user : PyVal → PyVal → Except PyError PyVal
  get_order_by_id : PyVal → Except PyError PyVal
  get_customer_orders : PyVal → Except PyError PyVal
  cancel_order : PyVal → Except PyError PyVal

/-- A database stub whose handlers always return `None`. -/
def trivialDb : Db :=
  ⟨fun _ _ => Except.ok PyVal.none, fun _ => Except.ok PyVal.none,
   fun _ => Except.ok PyVal.none, fun _ => Except.ok PyVal.none⟩

/-- A second database stub, distinguishable from `trivialDb`. -/
def otherDb : Db :=
  ⟨fun _ _ => Except.ok (PyVal.str ("changed")), fun _ => Except.ok (PyVal.str ("changed")),
   fun _ => Except.ok (PyVal.str ("changed")), fun _ => Except.ok (PyVal.str ("changed"))⟩

/-- Schema of one declared tool parameter (`tool_handler.py`, the
`input_schema.properties` entries). -/
structure ParamSchema where
  type : String
  enum : Option (List String)
  description : String
deriving DecidableEq

/-- The `input_schema` object of a tool declaration. -/
structure InputSchema where
  type : String
  properties : List (String × ParamSchema)
  required : List String
deriving DecidableEq

/-- One entry of the `tools` list of `tool_handler.py`. -/
structure ToolSchema where
  name : String
  description : String
  input_schema : InputSchema
deriving DecidableEq

/-- The `get_user` tool declaration. -/
def toolGetUser : ToolSchema :=
  { name := "get_user",
    description := "Looks up a user by email, phone, or username.",
    input_schema :=
      { type := "object",
        properties :=
          [("key", { type := "string",
                     enum := Option.some ["email", "phone", "username"],
                     description := "The attribute to search for a user by (email, phone, or username)." }),
           ("value", { type := "string",
                       enum := Option.none,
                       description := "The value to match for the specified attribute." })],
        required := ["key", "value"] } }

/-- The `get_order_by_id` tool declaration. -/
def toolGetOrderById : ToolSchema :=
  { name := "get_order_by_id",
    description := "Retrieves the details of a specific order based on the order ID.",
    input_schema :=
      { type := "object",
        properties :=
          [("order_id", { type := "string",
                          enum := Option.none,
                          description := "The unique identifier for the order." })],
        required := ["order_id"] } }

/-- The `get_customer_orders` tool declaration. -/
def toolGetCustomerOrders : ToolSchema :=
  { name := "get_customer_orders",
    description := "Retrieves the list of orders belonging to a user based on a user's customer id.",
    input_schema :=
      { type := "object",
        properties :=
          [("customer_id", { type := "string",
                             enum := Option.none,
                             description := "The customer_id belonging to the user" })],
        required := ["customer_id"] } }

/-- The `cancel_order` tool declaration. -/
def toolCancelOrder : ToolSchema :=
  { name := "cancel_order",
    description := "Cancels an order based on a provided order_id. Only orders that are 'processing' can be cancelled.",
    input_schema :=
      { type := "object",
        properties :=
          [("order_id", { type := "string",
                          enum := Option.none,
                          description := "The order_id pertaining to a particular order" })],
        required := ["order_id"] } }

/-- The `tools` list of `tool_handler.py`. -/
def tools : List ToolSchema :=
  [toolGetUser, toolGetOrderById, toolGetCustomerOrders, toolCancelOrder]

/-- Lookup of a declared tool schema by name. -/
def schemaFor (tool_name : String) : Option ToolSchema :=
  List.find? (fun t => t.name == tool_name) tools

/-- `process_tool_call` of `tool_handler.py`: branches on the tool name,
reads the arguments by direct dict indexing (so a missing key raises
`KeyError` before the handler runs), and falls off the end of the
`if`/`elif` chain — returning `None` — for any unknown name. -/
def process_tool_call (db : Db) (tool_name : String) (tool_input : PyDict) : Except PyError PyVal :=
  if tool_name = "get_user" then
    match pyGet tool_input ("key") with
    | Except.error e => Except.error e
    | Except.ok k =>
      match pyGet tool_input ("value") with
      | Except.error e => Except.error e
      | Except.ok v => db.get_user k v
  else if tool_name = "get_order_by_id" then
    match pyGet tool_input ("order_id") with
    | Except.error e => Except.error e
    | Except.ok oid => db.get_order_by_id oid
  else if tool_name = "get_customer_orders" then
    match pyGet tool_input ("customer_id") with
    | Except.error e => Except.error e
    | Except.ok cid => db.get_customer_orders cid
  else if tool_name = "cancel_order" then
    match pyGet tool_input ("order_id") with
    | Except.error e => Except.error e
    | Except.ok oid => db.cancel_order oid
  else Except.ok PyVal.none

/-- One content block of a gateway (API) response: either a text block or
a `tool_use` block carrying the correlation id, tool name and arguments. -/
inductive ContentBlock where
  | text (text : String)
  | toolUse (id : String) (name : String) (input : PyDict)

/-- Python attribute access `block.name`: present only on tool-use blocks. -/
def ContentBlock.getName : ContentBlock → Except PyError String
  | ContentBlock.toolUse _ n _ => Except.ok n
  | ContentBlock.text _ => Except.error (PyError.attributeError ("name"))

/-- Python attribute access `block.input`. -/
def ContentBlock.getInput : ContentBlock → Except PyError PyDict
  | ContentBlock.toolUse _ _ i => Except.ok i
  | ContentBlock.text _ => Except.error (PyError.attributeError ("input"))

/-- Python attribute access `block.id`. -/
def ContentBlock.getId : ContentBlock → Except PyError String
  | ContentBlock.toolUse i _ _ => Except.ok i
  | ContentBlock.text _ => Except.error (PyError.attributeError ("id"))

/-- Python attribute access `block.text`: present only on text blocks. -/
def ContentBlock.getText : ContentBlock → Except PyError String
  | ContentBlock.text t => Except.ok t
  | ContentBlock.toolUse _ _ _ => Except.error (PyError.attributeError ("text"))

/-- The `content` of a stored message: a plain string (user turns and
final assistant turns), the API content-block list (assistant tool-use
turns), or a plain Python value (the tool-result list of dicts). -/
inductive MsgContent where
  | ofStr (s : String)
  | ofBlocks (blocks : List ContentBlock)
  | ofVal (v : PyVal)

/-- One entry of `ConversationManager.messages`: the dict
`{"role": ..., "content": ...}`. -/
structure Message where
  role : String
  content : MsgContent

/-- The content block built by `ConversationManager.add_tool_result`:
`{"type": "tool_result", "tool_use_id": ..., "content": str(content)}`. -/
def toolResultBlock (tool_use_id : String) (content : PyVal) : List (String × PyVal) :=
  [("type", PyVal.str ("tool_result")),
   ("tool_use_id", PyVal.str tool_use_id),
   ("content", PyVal.str (pyStr content))]

/-- The full `content` value appended by `add_tool_result`: a one-element
list holding the tool-result block. -/
def toolResultVal (tool_use_id : String) (content : PyVal) : PyVal :=
  PyVal.list [PyVal.dict (toolResultBlock tool_use_id content)]

/-- `ConversationManager` of `conversation_manager.py`: a bare message
list. -/
structure ConversationManager where
  messages : List Message

/-- `ConversationManager.add_message`: appends `{"role": role,
"content": content}` at the end of the log. -/
def ConversationManager.add_message (m : ConversationManager) (role : String)
    (content : MsgContent) : ConversationManager :=
  ⟨m.messages ++ [⟨role, content⟩]⟩

/-- `ConversationManager.add_tool_result`: unconditionally appends a user
turn holding one tool-result block with the given id and the `str`
coercion of the given content. -/
def ConversationManager.add_tool_result (m : ConversationManager) (tool_use_id : String)
    (content : PyVal) : ConversationManager :=
  ⟨m.messages ++ [⟨"user", MsgContent.ofVal (toolResultVal tool_use_id content)⟩]⟩

/-- `ConversationManager.get_messages`: returns the stored message list. -/
def ConversationManager.get_messages (m : ConversationManager) : List Message :=
  m.messages

/-- The correlation ids of the tool-result blocks carried by one stored
message (empty for turns that are not tool-result turns). -/
def blockToolResultId (b : PyVal) : Option String :=
  match b with
  | PyVal.dict fields =>
    match fields.lookup ("type"), fields.lookup ("tool_use_id") with
    | Option.some (PyVal.str t), Option.some (PyVal.str tid) =>
      if t = "tool_result" then Option.some tid else Option.none
    | _, _ => Option.none
  | _ => Option.none

/-- All tool-result correlation ids appearing in one stored message. -/
def toolResultIds (m : Message) : List String :=
  match m.content with
  | MsgContent.ofVal (PyVal.list bs) => bs.filterMap blockToolResultId
  | _ => []

/-- All tool-use request ids appearing in one stored message (assistant
turns that carry API content blocks). -/
def toolUseIds (m : Message) : List String :=
  match m.content with
  | MsgContent.ofBlocks bs =>
    bs.filterMap (fun b => match b with
      | ContentBlock.toolUse i _ _ => Option.some i
      | _ => Option.none)
  | _ => []

/-- A gateway response as `app.py` consumes it: a stop reason and a list
of content blocks. -/
structure GatewayResponse where
  stop_reason : String
  content : List ContentBlock

/-- A model gateway: `get_llm_response` abstracted as a function of the
conversation snapshot (system prompt and tool list are fixed for the
session). -/
def Gateway : Type := List Message → GatewayResponse

/-- The tool-use branch of `simple_chat`'s inner loop: take the LAST
content block, read its `name` and `input`, dispatch, then append the
assistant turn and the single tool-result turn. -/
def handleToolTurn (db : Db) (conv : ConversationManager)
    (blocks : List ContentBlock) : Except PyError ConversationManager :=
  match blocks.getLast? with
  | Option.none => Except.error PyError.indexError
  | Option.some tool_use =>
    match tool_use.getName with
    | Except.error e => Except.error e
    | Except.ok tool_name =>
      match tool_use.getInput with
      | Except.error e => Except.error e
      | Except.ok tool_input =>
        match process_tool_call db tool_name tool_input with
        | Except.error e => Except.error e
        | Except.ok tool_result =>
          match tool_use.getId with
          | Except.error e => Except.error e
          | Except.ok tid =>
            Except.ok ((conv.add_message ("assistant")
              (MsgContent.ofBlocks blocks)).add_tool_result tid tool_result)

/-- Outcome of running `simple_chat`'s inner `while True` loop for a
bounded number of iterations: a final text was produced, the loop is
still running when the bound runs out, or an uncaught Python exception
escaped. -/
inductive LoopOutcome where
  | finalText (extracted : String) (conv : ConversationManager)
  | stillRunning (conv : ConversationManager)
  | crashed (e : PyError)

/-- Whether a loop outcome is "still running" (the iteration bound was
reached without the loop producing a final text or crashing). -/
def LoopOutcome.isStillRunning : LoopOutcome → Bool
  | LoopOutcome.stillRunning _ => true
  | _ => false

/-- Prefix test on character lists: does `pat` lead the second list? -/
def leadsWith : List Char → List Char → Bool
  | [], _ => true
  | _ :: _, [] => false
  | p :: ps, c :: cs => p == c && leadsWith ps cs

/-- `pat` occurs in `s` at position `i`. -/
abbrev occursAt (s pat : List Char) (i : Nat) : Prop :=
  leadsWith pat (List.drop i s) = true

/-- `i` is the first position at which `pat` occurs in `s`. -/
abbrev firstOcc (s pat : List Char) (i : Nat) : Prop :=
  occursAt s pat i ∧ ∀ j, j < i → ¬ occursAt s pat j

/-- Scanner behind Python's `str.find`: the first position at or after
the scan point where `pat` occurs, with `i` the index already consumed. -/
def pyFindAux (pat : List Char) : List Char → Nat → Option Nat
  | [], i => if leadsWith pat [] then Option.some i else Option.none
  | c :: rest, i =>
    if leadsWith pat (c :: rest) then Option.some i
    else pyFindAux pat rest (i + 1)

/-- Python `s.find(pat)`: the lowest index where `pat` occurs, `-1` when
it does not occur. -/
def pyFind (s pat : List Char) : Int :=
  match pyFindAux pat s 0 with
  | Option.some n => (n : Int)
  | Option.none => -1

/-- Python index clamping for one slice endpoint (step 1): negative
indices count from the end, and endpoints are clamped into the string. -/
def pyIdx (len : Nat) (i : Int) : Nat :=
  if i < 0 then Int.toNat ((len : Int) + i) else min (Int.toNat i) len

/-- Python slice `s[a:b]` with step 1. -/
def pySlice (s : List Char) (a b : Int) : List Char :=
  List.take (pyIdx s.length b - pyIdx s.length a) (List.drop (pyIdx s.length a) s)

/-- Python whitespace test used by `str.strip()` (ASCII range). -/
def isPySpace (c : Char) : Bool :=
  c = ' ' || c = Char.ofNat 9 || c = Char.ofNat 10 || c = Char.ofNat 13
    || c = Char.ofNat 11 || c = Char.ofNat 12

/-- Python `s.strip()`: drops whitespace from both ends. -/
def pyStrip (s : List Char) : List Char :=
  List.reverse (List.dropWhile isPySpace (List.reverse (List.dropWhile isPySpace s)))

/-- The opening delimiter `"<reply>"` of `response_formatter.py`. -/
def startTag : List Char := String.toList ("<reply>")

/-- The closing delimiter `"</reply>"` of `response_formatter.py`. -/
def endTag : List Char := String.toList ("</reply>")

/-- `extract_reply` of `response_formatter.py`: computes
`reply.find("<reply>") + 7` and `reply.find("</reply>")`, and when both
pass the `!= -1` guard returns the stripped slice between them, otherwise
the reply unchanged. -/
def extract_reply (reply : List Char) : List Char :=
  if pyFind reply startTag + (startTag.length : Int) ≠ -1 ∧ pyFind reply endTag ≠ -1 then
    pyStrip (pySlice reply (pyFind reply startTag + (startTag.length : Int)) (pyFind reply endTag))
  else reply

/-- The inner `while True` loop of `simple_chat` (`app.py`), run for at
most `fuel` gateway calls: on `stop_reason == "tool_use"` it handles the
last content block and loops, otherwise it extracts the reply from the
first content block's text and stops. The code itself has no iteration
bound; `fuel` only truncates the unfolding. -/
def innerLoop (gw : Gateway) (db : Db) : ConversationManager → Nat → LoopOutcome
  | conv, 0 => LoopOutcome.stillRunning conv
  | conv, Nat.succ n =>
    if (gw conv.get_messages).stop_reason = "tool_use" then
      match handleToolTurn db conv (gw conv.get_messages).content with
      | Except.error e => LoopOutcome.crashed e
      | Except.ok conv2 => innerLoop gw db conv2 n
    else
      match (gw conv.get_messages).content.head? with
      | Option.none => LoopOutcome.crashed PyError.indexError
      | Option.some blk =>
        match blk.getText with
        | Except.error e => LoopOutcome.crashed e
        | Except.ok reply =>
          LoopOutcome.finalText (String.mk (extract_reply reply.toList))
            (conv.add_message ("assistant") (MsgContent.ofStr reply))

/-- A gateway stub that on every call answers with a tool-use response
requesting one call of a tool. -/
def alwaysToolUseGw : Gateway :=
  fun _ => ⟨"tool_use", [ContentBlock.toolUse ("t1") ("frobnicate") []]⟩

/-- Store operations available on `ConversationManager`. -/
inductive StoreOp where
  | message (role : String) (content : MsgContent)
  | toolResult (tool_use_id : String) (content : PyVal)

/-- Application of one store operation. -/
def applyOp (m : ConversationManager) : StoreOp → ConversationManager
  | StoreOp.message r c => m.add_message r c
  | StoreOp.toolResult i c => m.add_tool_result i c

/-- Application of a sequence of store operations, oldest first. -/
def applyOps (m : ConversationManager) (ops : List StoreOp) : ConversationManager :=
  ops.foldl applyOp m

/-- The single turn one store operation appends. -/
def opMessage : StoreOp → Message
  | StoreOp.message r c => ⟨r, c⟩
  | StoreOp.toolResult i c => ⟨"user", MsgContent.ofVal (toolResultVal i c)⟩

lemma leadsWith_le_length (pat : List Char) :
    ∀ (l : List Char), leadsWith pat l = true → pat.length ≤ l.length := by
  induction pat with
  | nil => intro l _; simp
  | cons p ps ih =>
    intro l h
    cases l with
    | nil => exact absurd h (by simp [leadsWith])
    | cons c cs =>
      have h2 : leadsWith ps cs = true := by
        have h' := h
        simp [leadsWith] at h'
        exact h'.2
      have := ih cs h2
      simp only [List.length_cons]
      omega

lemma pyFindAux_of_first (pat : List Char) :
    ∀ (s : List Char) (i m : Nat), leadsWith pat (List.drop m s) = true →
      (∀ j, j < m → leadsWith pat (List.drop j s) = false) →
      pyFindAux pat s i = Option.some (i + m) := by
  intro s
  induction s with
  | nil =>
    intro i m h1 h2
    rw [List.drop_nil] at h1
    cases m with
    | zero => simp [pyFindAux, h1]
    | succ m' =>
      have hcon := h2 0 (Nat.succ_pos m')
      rw [List.drop_nil] at hcon
      rw [h1] at hcon
      cases hcon
  | cons c rest ih =>
    intro i m h1 h2
    cases m with
    | zero =>
      rw [List.drop_zero] at h1
      simp [pyFindAux, h1]
    | succ m' =>
      have h0 := h2 0 (Nat.succ_pos m')
      rw [List.drop_zero] at h0
      have hstep : pyFindAux pat (c :: rest) i = pyFindAux pat rest (i + 1) := by
        simp [pyFindAux, h0]
      rw [hstep]
      have h1' : leadsWith pat (List.drop m' rest) = true := by
        rw [List.drop_succ_cons] at h1
        exact h1
      have h2' : ∀ j, j < m' → leadsWith pat (List.drop j rest) = false := by
        intro j hj
        have hjj := h2 (j + 1) (by omega)
        rw [List.drop_succ_cons] at hjj
        exact hjj
      rw [ih (i + 1) m' h1' h2']
      congr 1
      omega

lemma pyFindAux_none_of_no_occ (pat : List Char) (hpat : pat ≠ []) :
    ∀ (s : List Char) (i : Nat),
      (∀ j, j < s.length → leadsWith pat (List.drop j s) = false) →
      pyFindAux pat s i = Option.none := by
  intro s
  induction s with
  | nil =>
    intro i _
    cases pat with
    | nil => exact absurd rfl hpat
    | cons p ps => simp [pyFindAux, leadsWith]
  | cons c rest ih =>
    intro i h
    have h0 := h 0 (by simp)
    rw [List.drop_zero] at h0
    have hstep : pyFindAux pat (c :: rest) i = pyFindAux pat rest (i + 1) := by
      simp [pyFindAux, h0]
    rw [hstep]
    apply ih
    intro j hj
    have hjj := h (j + 1) (by simp only [List.length_cons]; omega)
    rw [List.drop_succ_cons] at hjj
    exact hjj

lemma occursAt_bound (s pat : List Char) (i : Nat) (hpat : pat ≠ [])
    (h : occursAt s pat i) : i + pat.length ≤ s.length := by
  have hlen := leadsWith_le_length pat (List.drop i s) h
  rw [List.length_drop] at hlen
  have hp : 0 < pat.length := List.length_pos.mpr hpat
  omega

lemma pyFind_eq_of_first (s pat : List Char) (m : Nat) (h : firstOcc s pat m) :
    pyFind s pat = (m : Int) := by
  have hfalse : ∀ j, j < m → leadsWith pat (List.drop j s) = false := by
    intro j hj
    cases hb : leadsWith pat (List.drop j s) with
    | false => rfl
    | true => exact absurd hb (h.2 j hj)
  have hfind := pyFindAux_of_first pat s 0 m h.1 hfalse
  unfold pyFind
  rw [hfind]
  simp

lemma pyFind_eq_neg_one (s pat : List Char) (hpat : pat ≠ [])
    (h : ∀ j, j < s.length → ¬ occursAt s pat j) : pyFind s pat = -1 := by
  have hfalse : ∀ j, j < s.length → leadsWith pat (List.drop j s) = false := by
    intro j hj
    cases hb : leadsWith pat (List.drop j s) with
    | false => rfl
    | true => exact absurd hb (h j hj)
  have hfind := pyFindAux_none_of_no_occ pat hpat s 0 hfalse
  unfold pyFind
  rw [hfind]

/-- C7: when the gateway response is final text, the surfaced text is the
delimiter extraction of the reply: for every reply whose first `<reply>`
occurrence precedes its first `</reply>` occurrence, `extract_reply`
returns the stripped substring strictly between the two tags, and for
every reply containing neither tag it returns the reply unchanged. -/
theorem extract_reply_delimiter_spec :
    (∀ (reply : List Char) (s e : Nat), firstOcc reply startTag s →
      firstOcc reply endTag e → s < e →
      extract_reply reply
        = pyStrip (List.take (e - (s + startTag.length)) (List.drop (s + startTag.length) reply)))
    ∧ (∀ (reply : List Char),
        (∀ j, j < reply.length → ¬ occursAt reply startTag j) →
        (∀ j, j < reply.length → ¬ occursAt reply endTag j) →
        extract_reply reply = reply) := by
  constructor
  · intro reply s e hs he _
    have hfs : pyFind reply startTag = (s : Int) := pyFind_eq_of_first _ _ _ hs
    have hfe : pyFind reply endTag = (e : Int) := pyFind_eq_of_first _ _ _ he
    have h7 := occursAt_bound reply startTag s (by decide) hs.1
    have h8 := occursAt_bound reply endTag e (by decide) he.1
    have hs7 : startTag.length = 7 := by decide
    have he8 : endTag.length = 8 := by decide
    rw [hs7] at h7
    rw [he8] at h8
    unfold extract_reply
    rw [hfs, hfe]
    have hc : (s : Int) + (startTag.length : Int) ≠ -1 ∧ (e : Int) ≠ -1 := by
      constructor
      · rw [hs7]
        omega
      · omega
    rw [if_pos hc]
    have hslice : pySlice reply ((s : Int) + (startTag.length : Int)) ((e : Int))
        = List.take (e - (s + startTag.length)) (List.drop (s + startTag.length) reply) := by
      unfold pySlice pyIdx
      rw [hs7]
      rw [if_neg (by omega : ¬ ((s : Int) + ((7 : Nat) : Int) < 0)),
        if_neg (by omega : ¬ ((e : Int) < 0))]
      have ht1 : Int.toNat ((s : Int) + ((7 : Nat) : Int)) = s + 7 := by omega
      have ht2 : Int.toNat ((e : Int)) = e := by omega
      rw [ht1, ht2]
      rw [min_eq_left (by omega : s + 7 ≤ reply.length)]
      rw [min_eq_left (by omega : e ≤ reply.length)]
    rw [hslice]
  · intro reply h1 h2
    have hfs : pyFind reply startTag = -1 := pyFind_eq_neg_one _ _ (by decide) h1
    have hfe : pyFind reply endTag = -1 := pyFind_eq_neg_one _ _ (by decide) h2
    unfold extract_reply
    rw [hfs, hfe]
    rw [if_neg (fun hcon => hcon.2 rfl)]

/-- C7 witness: a reply wrapped in the tag pair is reduced to the
stripped span between them. -/
theorem extract_reply_delimiter_spec_witness :
    extract_reply (String.toList ("a<reply> hi </reply>b")) = String.toList ("hi") := by
  have h := extract_reply_delimiter_spec.1 (String.toList ("a<reply> hi </reply>b")) 1 12
    (by decide) (by decide) (by decide)
  rw [h]
  decide

/-- C9: the computed start index `reply.find("<reply>") + 7` is at least
6 for every input, so its `!= -1` guard is always true; consequently a
reply containing `</reply>` but not `<reply>` is reduced to the stripped
slice `reply[6:e]` (where `e` is the index of `</reply>`), not returned
unchanged. -/
theorem extract_reply_guard_always_true :
    ∀ (reply : List Char),
      pyFind reply startTag + (startTag.length : Int) ≥ 6 ∧
      ∀ (e : Nat), (∀ j, j < reply.length → ¬ occursAt reply startTag j) →
        firstOcc reply endTag e →
        extract_reply reply = pyStrip (List.take (e - 6) (List.drop 6 reply)) := by
  intro reply
  constructor
  · have hge : pyFind reply startTag ≥ -1 := by
      unfold pyFind
      split
      · omega
      · omega
    have hs7 : startTag.length = 7 := by decide
    rw [hs7]
    omega
  · intro e h1 he
    have hfs : pyFind reply startTag = -1 := pyFind_eq_neg_one _ _ (by decide) h1
    have hfe : pyFind reply endTag = (e : Int) := pyFind_eq_of_first _ _ _ he
    have h8 := occursAt_bound reply endTag e (by decide) he.1
    have he8 : endTag.length = 8 := by decide
    rw [he8] at h8
    have hs7 : startTag.length = 7 := by decide
    unfold extract_reply
    rw [hfs, hfe]
    have hc : (-1 : Int) + (startTag.length : Int) ≠ -1 ∧ (e : Int) ≠ -1 := by
      constructor
      · rw [hs7]
        omega
      · omega
    rw [if_pos hc]
    have hslice : pySlice reply ((-1 : Int) + (startTag.length : Int)) ((e : Int))
        = List.take (e - 6) (List.drop 6 reply) := by
      unfold pySlice pyIdx
      rw [hs7]
      rw [if_neg (by omega : ¬ ((-1 : Int) + ((7 : Nat) : Int) < 0)),
        if_neg (by omega : ¬ ((e : Int) < 0))]
      have ht1 : Int.toNat ((-1 : Int) + ((7 : Nat) : Int)) = 6 := by omega
      have ht2 : Int.toNat ((e : Int)) = e := by omega
      rw [ht1, ht2]
      rw [min_eq_left (by omega : (6 : Nat) ≤ reply.length)]
      rw [min_eq_left (by omega : e ≤ reply.length)]
    rw [hslice]

/-- C9 witness: a reply with a closing tag but no opening tag loses its
first six characters instead of being returned unchanged. -/
theorem extract_reply_guard_always_true_witness :
    extract_reply (String.toList ("ABCDEFGH</reply>")) = String.toList ("GH") := by
  have h := (extract_reply_guard_always_true (String.toList ("ABCDEFGH</reply>"))).2 8
    (by decide) (by decide)
  rw [h]
  decide

/-- C1 counterexample: appending a tool-result turn to an empty
conversation — where no tool-use request was ever issued — succeeds and
leaves the store holding an orphaned tool-result turn with id `"t1"`;
no `InvalidTurn` rejection occurs. -/
theorem add_tool_result_accepts_orphan_cex :
    (List.map toolResultIds
        (((ConversationManager.mk []).add_tool_result ("t1") (PyVal.str ("x"))).messages)).flatten
      = ["t1"]
    ∧ (List.map toolUseIds ((ConversationManager.mk []).messages)).flatten = [] :=
  ⟨rfl, rfl⟩

/-- C1 amended: `add_tool_result` performs no validation and has no
failure path: for every store state, correlating id and content it
unconditionally appends exactly one tool-result turn with that id, so the
store accepts orphaned tool results. -/
theorem add_tool_result_unconditional_append
    (m : ConversationManager) (tool_use_id : String) (content : PyVal) :
    (m.add_tool_result tool_use_id content).messages
      = m.messages ++ [⟨"user", MsgContent.ofVal (toolResultVal tool_use_id content)⟩] :=
  rfl

/-- C2 counterexample: with a gateway stub that on every call returns a
tool-use response, `simple_chat`'s inner loop is still running after 10
gateway-call iterations — no iteration cap fires and no
`ToolLoopExceeded` failure exists anywhere in the code. -/
theorem inner_loop_no_cap_cex :
    LoopOutcome.isStillRunning
      (innerLoop alwaysToolUseGw trivialDb (ConversationManager.mk []) 10) = true := by
  decide

/-- C2 amended: the inner loop has no iteration cap at all: under a
gateway stub that always returns a tool-use response, for every starting
conversation and every iteration bound `n` the loop is still running
after `n` iterations — it never terminates and never fails with any
loop-exceeded error. -/
theorem inner_loop_never_terminates (db : Db) (conv : ConversationManager) (n : Nat) :
    LoopOutcome.isStillRunning (innerLoop alwaysToolUseGw db conv n) = true := by
  induction n generalizing conv with
  | zero => rfl
  | succ n ih =>
    exact ih ((conv.add_message ("assistant")
      (MsgContent.ofBlocks [ContentBlock.toolUse ("t1") ("frobnicate") []])).add_tool_result
        ("t1") PyVal.none)

/-- A gateway response content carrying two tool-use requests in one
model turn, ids `"t1"` then `"t2"`. -/
def twoToolBlocks : List ContentBlock :=
  [ContentBlock.toolUse ("t1") ("get_order_by_id") [("order_id", PyVal.str ("1"))],
   ContentBlock.toolUse ("t2") ("get_order_by_id") [("order_id", PyVal.str ("2"))]]

/-- C3 counterexample: on a model turn requesting N = 2 tool invocations,
the driver appends exactly one tool-result turn — the one for the LAST
request, `"t2"` — instead of two results in order; the request `"t1"` is
dropped entirely. -/
theorem handle_tool_turn_drops_requests_cex :
    (handleToolTurn trivialDb (ConversationManager.mk []) twoToolBlocks).map
        (fun c => (List.map toolResultIds c.messages).flatten)
      = Except.ok ["t2"] :=
  rfl

/-- C3 amended: the driver handles only the last content block of a
tool-use response: whenever the last block is a tool-use request whose
dispatch succeeds, exactly one assistant turn and exactly one tool-result
turn (correlating the last request's id) are appended before the next
gateway call, regardless of how many requests the turn contained; for
N = 1 this dispatches the single request and appends its single result. -/
theorem handle_tool_turn_last_block_only
    (db : Db) (conv : ConversationManager) (blocks : List ContentBlock)
    (tid name : String) (inp : PyDict) (v : PyVal)
    (hlast : blocks.getLast? = Option.some (ContentBlock.toolUse tid name inp))
    (hdispatch : process_tool_call db name inp = Except.ok v) :
    handleToolTurn db conv blocks
      = Except.ok ⟨conv.messages
          ++ [⟨"assistant", MsgContent.ofBlocks blocks⟩,
              ⟨"user", MsgContent.ofVal (toolResultVal tid v)⟩]⟩ := by
  unfold handleToolTurn
  rw [hlast]
  simp [ContentBlock.getName, ContentBlock.getInput, ContentBlock.getId, hdispatch,
    ConversationManager.add_message, ConversationManager.add_tool_result]

/-- C3 witness: a single-request turn is dispatched and its one result
appended in order. -/
theorem handle_tool_turn_last_block_only_witness :
    handleToolTurn trivialDb (ConversationManager.mk [])
        [ContentBlock.toolUse ("t9") ("cancel_order") [("order_id", PyVal.str ("o1"))]]
      = Except.ok ⟨[⟨"assistant", MsgContent.ofBlocks
            [ContentBlock.toolUse ("t9") ("cancel_order") [("order_id", PyVal.str ("o1"))]]⟩,
          ⟨"user", MsgContent.ofVal (toolResultVal ("t9") PyVal.none)⟩]⟩ :=
  handle_tool_turn_last_block_only trivialDb (ConversationManager.mk []) _ ("t9")
    ("cancel_order") _ PyVal.none rfl rfl

/-- C4 counterexample: calling the dispatcher for the known tool
`get_user` with an empty argument mapping (required `key` and `value`
missing) raises an uncaught `KeyError` local fault; no validation runs,
no handler is consulted, and no `is_error` tool result is produced. -/
theorem process_tool_call_no_validation_cex :
    process_tool_call trivialDb ("get_user") [] = Except.error (PyError.keyError ("key")) :=
  rfl

/-- C4 amended: the dispatcher performs no schema validation at all:
for every database and every argument mapping missing the required
`key` parameter, dispatching `get_user` raises an uncaught `KeyError`
local fault before any handler runs, instead of returning an error
tool result. -/
theorem process_tool_call_missing_key_raises
    (db : Db) (tool_input : PyDict) (h : tool_input.lookup ("key") = Option.none) :
    process_tool_call db ("get_user") tool_input
      = Except.error (PyError.keyError ("key")) := by
  simp [process_tool_call, pyGet, h]

/-- C4 witness: the fault at a concrete malformed input. -/
theorem process_tool_call_missing_key_raises_witness :
    process_tool_call trivialDb ("get_user") [("value", PyVal.str ("v"))]
      = Except.error (PyError.keyError ("key")) :=
  process_tool_call_missing_key_raises trivialDb [("value", PyVal.str ("v"))] rfl

/-- C5 counterexample: dispatching a tool name absent from the declared
schema set returns the ordinary empty result `None` (the `if`/`elif`
chain falls through): no `UnknownTool` fault is raised, and in the loop
this `None` is stringified and fed back to the model as a tool result. -/
theorem process_tool_call_unknown_tool_cex :
    process_tool_call trivialDb ("translate") [] = Except.ok PyVal.none :=
  rfl

/-- C5 amended: for every tool name outside the four declared tools, the
dispatcher silently returns `None` as an ordinary successful result, for
every database and every argument mapping. -/
theorem process_tool_call_unknown_tool_none
    (db : Db) (tool_name : String) (tool_input : PyDict)
    (h1 : tool_name ≠ "get_user") (h2 : tool_name ≠ "get_order_by_id")
    (h3 : tool_name ≠ "get_customer_orders") (h4 : tool_name ≠ "cancel_order") :
    process_tool_call db tool_name tool_input = Except.ok PyVal.none := by
  simp [process_tool_call, h1, h2, h3, h4]

/-- C5 witness: the silent `None` at a concrete unknown tool name. -/
theorem process_tool_call_unknown_tool_none_witness :
    process_tool_call otherDb ("frobnicate") [("x", PyVal.int 3)] = Except.ok PyVal.none :=
  process_tool_call_unknown_tool_none otherDb ("frobnicate") [("x", PyVal.int 3)]
    (by decide) (by decide) (by decide) (by decide)

/-- C6: the conversation store is append-only: every sequence of
`add_message`/`add_tool_result` operations extends the log by exactly
one turn per operation at the end, leaves every previously stored turn
unchanged, and `get_messages` returns the full ordered history. -/
theorem conversation_store_append_only (m : ConversationManager) (ops : List StoreOp) :
    (applyOps m ops).get_messages = m.get_messages ++ List.map opMessage ops := by
  induction ops generalizing m with
  | nil => simp [applyOps, ConversationManager.get_messages]
  | cons op ops ih =>
    have hstep : applyOps m (op :: ops) = applyOps (applyOp m op) ops := rfl
    rw [hstep, ih]
    cases op with
    | message r c =>
      simp [applyOp, ConversationManager.add_message, ConversationManager.get_messages,
        opMessage]
    | toolResult i c =>
      simp [applyOp, ConversationManager.add_tool_result, ConversationManager.get_messages,
        opMessage]

/-- C8: dispatcher behaviour on malformed arguments is deterministic:
for every declared tool and every argument mapping missing one of the
tool's required parameters, dispatch produces the same `KeyError`
outcome — the error for the first missing parameter in access order —
on any two invocations, independent of any database state change in
between, and before any handler can run. -/
theorem process_tool_call_validation_deterministic
    (db1 db2 : Db) (tool_name : String) (sch : ToolSchema) (tool_input : PyDict) (k : String)
    (hsch : schemaFor tool_name = Option.some sch)
    (hmiss : List.find? (fun p => (tool_input.lookup p).isNone) sch.input_schema.required
      = Option.some k) :
    process_tool_call db1 tool_name tool_input = Except.error (PyError.keyError k)
    ∧ process_tool_call db1 tool_name tool_input = process_tool_call db2 tool_name tool_input := by
  have hmem : sch ∈ tools := List.mem_of_find?_eq_some hsch
  have hname : sch.name = tool_name := by
    have hns := List.find?_some hsch
    simpa using hns
  have hcases : sch = toolGetUser ∨ sch = toolGetOrderById
      ∨ sch = toolGetCustomerOrders ∨ sch = toolCancelOrder := by
    simpa [tools] using hmem
  rcases hcases with h | h | h | h
  · subst h
    have hn : tool_name = "get_user" := by
      rw [← hname]
      rfl
    subst hn
    have hmiss' : List.find? (fun p => (tool_input.lookup p).isNone) (["key", "value"])
        = Option.some k := hmiss
    rcases hk : tool_input.lookup ("key") with _ | vk
    · have hkk : ("key" : String) = k := by
        simpa [List.find?_cons, hk] using hmiss'
      subst hkk
      constructor <;> simp [process_tool_call, pyGet, hk]
    · rcases hv : tool_input.lookup ("value") with _ | vv
      · have hkk : ("value" : String) = k := by
          simpa [List.find?_cons, hk, hv] using hmiss'
        subst hkk
        constructor <;> simp [process_tool_call, pyGet, hk, hv]
      · simp [List.find?_cons, hk, hv] at hmiss'
  · subst h
    have hn : tool_name = "get_order_by_id" := by
      rw [← hname]
      rfl
    subst hn
    have hmiss' : List.find? (fun p => (tool_input.lookup p).isNone) (["order_id"])
        = Option.some k := hmiss
    rcases hk : tool_input.lookup ("order_id") with _ | vk
    · have hkk : ("order_id" : String) = k := by
        simpa [List.find?_cons, hk] using hmiss'
      subst hkk
      constructor <;> simp [process_tool_call, pyGet, hk]
    · simp [List.find?_cons, hk] at hmiss'
  · subst h
    have hn : tool_name = "get_customer_orders" := by
      rw [← hname]
      rfl
    subst hn
    have hmiss' : List.find? (fun p => (tool_input.lookup p).isNone) (["customer_id"])
        = Option.some k := hmiss
    rcases hk : tool_input.lookup ("customer_id") with _ | vk
    · have hkk : ("customer_id" : String) = k := by
        simpa [List.find?_cons, hk] using hmiss'
      subst hkk
      constructor <;> simp [process_tool_call, pyGet, hk]
    · simp [List.find?_cons, hk] at hmiss'
  · subst h
    have hn : tool_name = "cancel_order" := by
      rw [← hname]
      rfl
    subst hn
    have hmiss' : List.find? (fun p => (tool_input.lookup p).isNone) (["order_id"])
        = Option.some k := hmiss
    rcases hk : tool_input.lookup ("order_id") with _ | vk
    · have hkk : ("order_id" : String) = k := by
        simpa [List.find?_cons, hk] using hmiss'
      subst hkk
      constructor <;> simp [process_tool_call, pyGet, hk]
    · simp [List.find?_cons, hk] at hmiss'

/-- C8 witness: the same malformed `get_user` call, made against two
different database states, yields the identical `KeyError` both times. -/
theorem process_tool_call_validation_deterministic_witness :
    process_tool_call trivialDb ("get_user") [] = Except.error (PyError.keyError ("key"))
    ∧ process_tool_call trivialDb ("get_user") [] = process_tool_call otherDb ("get_user") [] :=
  process_tool_call_validation_deterministic trivialDb otherDb ("get_user") toolGetUser [] ("key")
    (by decide) (by decide)

/-- C10: every turn appended by `add_tool_result` has role `"user"` and
exactly one content block, of type `"tool_result"`, carrying the id
passed in and the string coercion `str(content)` of the dispatcher's
result (so `None` becomes `"None"`); the block's fields are exactly
`type`, `tool_use_id` and `content` — no `is_error` field exists. -/
theorem add_tool_result_block_shape (m : ConversationManager) (tid : String) (c : PyVal) :
    (m.add_tool_result tid c).messages
      = m.messages
        ++ [⟨"user", MsgContent.ofVal (PyVal.list [PyVal.dict (toolResultBlock tid c)])⟩]
    ∧ List.map Prod.fst (toolResultBlock tid c) = ["type", "tool_use_id", "content"]
    ∧ (toolResultBlock tid c).lookup ("content") = Option.some (PyVal.str (pyStr c))
    ∧ ("is_error") ∉ List.map Prod.fst (toolResultBlock tid c)
    ∧ pyStr PyVal.none = "None" := by
  refine ⟨rfl, rfl, rfl, ?_, rfl⟩
  simp [toolResultBlock]
